import Mathlib

/-!
Verification of the mini_tester differential shell-test harness.

The Go program under study loads a list of test cases, runs each command
through two shells (a reference `bash` and a `minishell` under test) via
subprocesses, compares trimmed stdout/stderr and exit codes, and reports
a pass/fail summary plus diffs.  Below we give a shallow embedding of its
data model and of the functions `runCommand`, `compareOutput`,
`generateDiff` and the statistics/exit logic of `main`, and prove the
spec's testable properties about them.
-/

set_option autoImplicit false

namespace MiniTester

/-- `TestCase` mirrors the Go struct `TestCase`: a command with a
description and optional expectations (empty string / zero meaning
"unspecified", as with Go zero values and `omitempty`). -/
structure TestCase where
  command : String
  description : String
  expectedOutput : String
  expectedError : String
  expectedCode : Int
  deriving DecidableEq, Repr

/-- `TestResult` mirrors the Go struct `TestResult`. -/
structure TestResult where
  description : String
  bashOutput : String
  minishellOutput : String
  bashError : String
  minishellError : String
  bashReturnCode : Int
  minishellReturnCode : Int
  outputMatch : Bool
  errorMatch : Bool
  returnCodeMatch : Bool
  expectedOutputMatch : Bool
  expectedErrorMatch : Bool
  expectedCodeMatch : Bool
  deriving DecidableEq, Repr

/-- The character class trimmed by Go's `strings.TrimSpace`
(`unicode.IsSpace`, i.e. the Unicode White_Space property). -/
def goIsSpace (c : Char) : Bool :=
  let n := c.toNat
  (0x09 ≤ n && n ≤ 0x0D) || n == 0x20 || n == 0x85 || n == 0xA0 ||
    n == 0x1680 || (0x2000 ≤ n && n ≤ 0x200A) || n == 0x2028 ||
    n == 0x2029 || n == 0x202F || n == 0x205F || n == 0x3000

/-- Drop leading and trailing white space from a list of characters. -/
def trimSpaceList (s : List Char) : List Char :=
  ((s.dropWhile goIsSpace).reverse.dropWhile goIsSpace).reverse

/-- Embedding of Go's `strings.TrimSpace`. -/
def trimSpace (s : String) : String :=
  ⟨trimSpaceList s.data⟩

/-- Outcome of `cmd.Wait()` in `runCommand`: the process exited normally
with status 0 (`Wait` returns nil), exited abnormally (an
`exec.ExitError` carrying the reported exit code), or `Wait` failed with
some other error. -/
inductive WaitRes where
  | ok
  | exitErr (code : Int)
  | otherErr
  deriving DecidableEq, Repr

/-- The exit code `runCommand` derives from the `Wait` outcome:
`exitCode := 0; if err != nil && errors.As(err, &exitErr) { exitCode =
exitErr.ExitCode() }`. -/
def waitCode : WaitRes → Int
  | .ok => 0
  | .exitErr code => code
  | .otherErr => 0

/-- One invocation environment for `runCommand`: which of the fallible
steps (`StdinPipe`, `Start`, `stdin.Write`) fails and with what error
text, the `Wait` outcome, and the raw bytes the subprocess wrote to its
stdout/stderr buffers. -/
structure RunEnv where
  pipeErr : Option String
  startErr : Option String
  writeErr : Option String
  waitRes : WaitRes
  stdout : String
  stderr : String
  deriving DecidableEq, Repr

/-- Observable process-lifecycle events of one `runCommand` call, in the
order they happen. -/
inductive RunEvent where
  | started
  | wroteStdin
  | closedStdin
  | waited
  deriving DecidableEq, Repr

/-- Embedding of `runCommand`, returning the `(stdout, stderr, exitCode)`
triple together with the trace of lifecycle events that occurred before
the function returned.  Mirrors the Go control flow: an error from
`StdinPipe`, `Start` or `stdin.Write` returns `("", err.Error(), 1)`
immediately; otherwise stdin is closed, the process is waited on, and the
trimmed captured streams are returned with the derived exit code. -/
def runCommandModel (env : RunEnv) : (String × String × Int) × List RunEvent :=
  match env.pipeErr with
  | some e => (("", e, 1), [])
  | none =>
    match env.startErr with
    | some e => (("", e, 1), [])
    | none =>
      match env.writeErr with
      | some e => (("", e, 1), [.started])
      | none =>
        ((trimSpace env.stdout, trimSpace env.stderr, waitCode env.waitRes),
          [.started, .wroteStdin, .closedStdin, .waited])

/-- The `(stdout, stderr, exitCode)` triple returned by `runCommand`. -/
def runCommandRes (env : RunEnv) : String × String × Int :=
  (runCommandModel env).1

/-- The event trace of one `runCommand` call. -/
def runCommandTrace (env : RunEnv) : List RunEvent :=
  (runCommandModel env).2

/-- A shell is modelled as a deterministic map from a command string to
the invocation environment its subprocess produces. -/
def Shell : Type :=
  String → RunEnv

/-- Association list standing for the Go `map[string]TestResult` /
`map[string]string`: `insertAssoc` is map assignment (overwrite the
entry for the key if present, otherwise add one). -/
def insertAssoc {α : Type} (k : String) (v : α) : List (String × α) → List (String × α)
  | [] => [(k, v)]
  | (k', v') :: rest =>
    if k' = k then (k, v) :: rest else (k', v') :: insertAssoc k v rest

/-- Map lookup on the association list. -/
def assocFind {α : Type} (k : String) : List (String × α) → Option α
  | [] => none
  | (k', v) :: rest => if k' = k then some v else assocFind k rest

/-- Number of entries stored under key `k`. -/
def countKey {α : Type} (k : String) (m : List (String × α)) : Nat :=
  (m.filter (fun p => p.1 == k)).length

/-- The `TestResult` built for one test case in the loop body of
`compareOutput`: run the command in both shells and fill in the captured
data and the match booleans. -/
def mkResult (bash mini : Shell) (tc : TestCase) : TestResult :=
  let bashRes := runCommandRes (bash tc.command)
  let miniRes := runCommandRes (mini tc.command)
  { description := tc.description
    bashOutput := bashRes.1
    minishellOutput := miniRes.1
    bashError := bashRes.2.1
    minishellError := miniRes.2.1
    bashReturnCode := bashRes.2.2
    minishellReturnCode := miniRes.2.2
    outputMatch := bashRes.1 == miniRes.1
    errorMatch := bashRes.2.1 == miniRes.2.1
    returnCodeMatch := bashRes.2.2 == miniRes.2.2
    expectedOutputMatch := tc.expectedOutput == "" || miniRes.1 == tc.expectedOutput
    expectedErrorMatch := tc.expectedError == "" || miniRes.2.1 == tc.expectedError
    expectedCodeMatch := tc.expectedCode == 0 || miniRes.2.2 == tc.expectedCode }

/-- Embedding of `compareOutput`: fold over the test cases in order,
storing each result in the map under the test case's command text. -/
def compareOutput (bash mini : Shell) (testCases : List TestCase) :
    List (String × TestResult) :=
  testCases.foldl (fun m tc => insertAssoc tc.command (mkResult bash mini tc) m) []

/-- The mismatch condition used both by `generateDiff` and by the status
line in `main`: `!result.OutputMatch || !result.ErrorMatch ||
!result.ReturnCodeMatch`. -/
def mismatch (r : TestResult) : Bool :=
  !r.outputMatch || !r.errorMatch || !r.returnCodeMatch

/-- Embedding of `generateDiff`, parametric in the external diff
rendering `df` (the Go code delegates to
`diffmatchpatch.DiffMain`/`DiffPrettyText`, a third-party library): every
mismatching result gets an entry, keyed by command, whose text is the
rendered diff of the two captured stdouts. -/
def generateDiff (df : String → String → String)
    (results : List (String × TestResult)) : List (String × String) :=
  results.foldl
    (fun d p => if mismatch p.2 then insertAssoc p.1 (df p.2.bashOutput p.2.minishellOutput) d else d)
    []

/-- The per-test status string printed by `main`:
`status := "PASS"; if !a || !b || !c { status = "FAIL" }`. -/
def statusOf (r : TestResult) : String :=
  if mismatch r then "FAIL" else "PASS"

/-- `passedTests` as computed by the counting loop in `main`. -/
def passedTests (results : List (String × TestResult)) : Nat :=
  results.foldl
    (fun n p => if p.2.outputMatch && p.2.errorMatch && p.2.returnCodeMatch then n + 1 else n)
    0

/-- `totalTests := len(results)`. -/
def totalTests (results : List (String × TestResult)) : Nat :=
  results.length

/-- `FailedTests: totalTests - passedTests` in the report summary. -/
def failedTests (results : List (String × TestResult)) : Nat :=
  totalTests results - passedTests results

/-- Environment of one `main` invocation: how loading fares, whether the
two shell paths pass the `os.Stat` existence checks in `NewShellTester`,
the shells' behaviour, and whether serialising/writing the optional
report succeeds. -/
structure MainEnv where
  loadRes : Except String (List TestCase)
  bashFound : Bool
  miniFound : Bool
  bash : Shell
  mini : Shell
  outputPath : String
  marshalOk : Bool
  writeOk : Bool

/-- Embedding of the exit status of `main`: 1 after a load error, a
failed shell existence check, or (when an output path was given) a
failed report marshal/write; 0 otherwise.  The comparison results are
computed but never influence the exit status. -/
def mainExit (env : MainEnv) : Nat :=
  match env.loadRes with
  | .error _ => 1
  | .ok testCases =>
    if !env.bashFound then 1
    else if !env.miniFound then 1
    else
      let results := compareOutput env.bash env.mini testCases
      let _passed := passedTests results
      if env.outputPath ≠ "" then
        if !env.marshalOk then 1
        else if !env.writeOk then 1
        else 0
      else 0

/-! ### Association-list lemmas -/

theorem assocFind_insertAssoc_self {α : Type} (k : String) (v : α) (m : List (String × α)) :
    assocFind k (insertAssoc k v m) = some v := by
  induction m with
  | nil => simp [insertAssoc, assocFind]
  | cons p rest ih =>
    obtain ⟨k', v'⟩ := p
    by_cases h : k' = k
    · simp [insertAssoc, h, assocFind]
    · simp [insertAssoc, h, assocFind, ih]

theorem insertAssoc_cons_self {α : Type} (k : String) (v v' : α) (rest : List (String × α)) :
    insertAssoc k v ((k, v') :: rest) = (k, v) :: rest := by
  simp [insertAssoc]

theorem insertAssoc_cons_ne {α : Type} {k k' : String} (h : k' ≠ k) (v v' : α)
    (rest : List (String × α)) :
    insertAssoc k v ((k', v') :: rest) = (k', v') :: insertAssoc k v rest := by
  simp [insertAssoc, h]

theorem assocFind_insertAssoc_ne {α : Type} {k c : String} (h : k ≠ c) (v : α)
    (m : List (String × α)) :
    assocFind c (insertAssoc k v m) = assocFind c m := by
  induction m with
  | nil => simp [insertAssoc, assocFind, h]
  | cons p rest ih =>
    obtain ⟨k', v'⟩ := p
    by_cases hk : k' = k
    · subst hk
      rw [insertAssoc_cons_self]
      simp [assocFind, h]
    · rw [insertAssoc_cons_ne hk]
      by_cases hc : k' = c
      · simp [assocFind, hc]
      · simp [assocFind, hc, ih]

theorem countKey_nil {α : Type} (c : String) : countKey c ([] : List (String × α)) = 0 :=
  rfl

theorem countKey_cons {α : Type} (c k' : String) (v' : α) (rest : List (String × α)) :
    countKey c ((k', v') :: rest) = (if k' = c then 1 else 0) + countKey c rest := by
  by_cases h : k' = c
  · simp [countKey, List.filter_cons, h]
    omega
  · simp [countKey, List.filter_cons, h]

theorem countKey_insertAssoc_self {α : Type} (k : String) (v : α) (m : List (String × α)) :
    countKey k (insertAssoc k v m) = if countKey k m = 0 then 1 else countKey k m := by
  induction m with
  | nil => simp [insertAssoc, countKey_cons, countKey_nil]
  | cons p rest ih =>
    obtain ⟨k', v'⟩ := p
    by_cases h : k' = k
    · subst h
      rw [insertAssoc_cons_self, countKey_cons, countKey_cons]
      simp
    · rw [insertAssoc_cons_ne h, countKey_cons, countKey_cons, ih]
      simp [h]

theorem countKey_insertAssoc_ne {α : Type} {k c : String} (h : k ≠ c) (v : α)
    (m : List (String × α)) :
    countKey c (insertAssoc k v m) = countKey c m := by
  induction m with
  | nil => simp [insertAssoc, countKey_cons, countKey_nil, h]
  | cons p rest ih =>
    obtain ⟨k', v'⟩ := p
    by_cases hk : k' = k
    · subst hk
      rw [insertAssoc_cons_self, countKey_cons, countKey_cons]
    · rw [insertAssoc_cons_ne hk, countKey_cons, countKey_cons, ih]

theorem assocFind_mem {α : Type} {c : String} {r : α} {m : List (String × α)}
    (h : assocFind c m = some r) : (c, r) ∈ m := by
  induction m with
  | nil => simp [assocFind] at h
  | cons p rest ih =>
    obtain ⟨k', v⟩ := p
    by_cases hk : k' = c
    · subst hk
      simp [assocFind] at h
      simp [h]
    · simp [assocFind, hk] at h
      exact List.mem_cons_of_mem _ (ih h)

/-! ### compareOutput lemmas -/

theorem compareOutput_append_singleton (bash mini : Shell) (tcs : List TestCase)
    (tc : TestCase) :
    compareOutput bash mini (tcs ++ [tc]) =
      insertAssoc tc.command (mkResult bash mini tc) (compareOutput bash mini tcs) := by
  simp [compareOutput, List.foldl_append]

theorem assocFind_compareOutput (bash mini : Shell) (tcs : List TestCase) (c : String) :
    assocFind c (compareOutput bash mini tcs) =
      Option.map (mkResult bash mini) (tcs.reverse.find? (fun t => t.command == c)) := by
  induction tcs using List.reverseRecOn with
  | nil => simp [compareOutput, assocFind]
  | append_singleton l a ih =>
    rw [compareOutput_append_singleton]
    by_cases h : a.command = c
    · subst h
      simp [assocFind_insertAssoc_self, List.find?]
    · rw [assocFind_insertAssoc_ne h, ih]
      have hbeq : (a.command == c) = false := by simpa using h
      simp [List.find?, hbeq]

theorem countKey_compareOutput (bash mini : Shell) (tcs : List TestCase) (c : String) :
    countKey c (compareOutput bash mini tcs) =
      if tcs.any (fun t => t.command == c) then 1 else 0 := by
  induction tcs using List.reverseRecOn with
  | nil => simp [compareOutput, countKey]
  | append_singleton l a ih =>
    rw [compareOutput_append_singleton]
    by_cases h : a.command = c
    · subst h
      rw [countKey_insertAssoc_self, ih]
      by_cases hl : l.any (fun t => t.command == a.command)
      · simp [hl]
      · simp [hl]
    · rw [countKey_insertAssoc_ne h, ih]
      have hbeq : (a.command == c) = false := by simpa using h
      simp [hbeq]

/-! ### Counting lemmas -/

theorem passedTests_foldl_aux (m : List (String × TestResult)) (n : Nat) :
    m.foldl
        (fun n p => if p.2.outputMatch && p.2.errorMatch && p.2.returnCodeMatch then n + 1 else n)
        n =
      n + (m.filter
        (fun p => p.2.outputMatch && p.2.errorMatch && p.2.returnCodeMatch)).length := by
  induction m generalizing n with
  | nil => simp
  | cons p rest ih =>
    by_cases h : (p.2.outputMatch && p.2.errorMatch && p.2.returnCodeMatch) = true
    · simp only [List.foldl_cons, List.filter_cons, h, if_true, List.length_cons, ih]
      omega
    · simp only [Bool.not_eq_true] at h
      simp only [List.foldl_cons, List.filter_cons, h, List.length_cons, ih]
      simp

theorem passedTests_eq_filter (m : List (String × TestResult)) :
    passedTests m =
      (m.filter (fun p => p.2.outputMatch && p.2.errorMatch && p.2.returnCodeMatch)).length := by
  simpa [passedTests] using passedTests_foldl_aux m 0

/-! ### generateDiff lemmas -/

theorem generateDiff_isSome_preserved (df : String → String → String) (c : String)
    (results : List (String × TestResult)) (d : List (String × String))
    (h : (assocFind c d).isSome = true) :
    (assocFind c
        (results.foldl
          (fun d p =>
            if mismatch p.2 then insertAssoc p.1 (df p.2.bashOutput p.2.minishellOutput) d else d)
          d)).isSome = true := by
  induction results generalizing d with
  | nil => simpa using h
  | cons p rest ih =>
    simp only [List.foldl_cons]
    apply ih
    by_cases hm : mismatch p.2
    · simp only [hm, if_true]
      by_cases hk : p.1 = c
      · subst hk
        simp [assocFind_insertAssoc_self]
      · rwa [assocFind_insertAssoc_ne hk]
    · simpa [hm] using h

theorem generateDiff_mem_isSome (df : String → String → String) {c : String} {r : TestResult}
    {results : List (String × TestResult)}
    (hmem : (c, r) ∈ results) (hm : mismatch r = true) :
    (assocFind c (generateDiff df results)).isSome = true := by
  unfold generateDiff
  generalize hd : ([] : List (String × String)) = d
  clear hd
  induction results generalizing d with
  | nil => simp at hmem
  | cons p rest ih =>
    simp only [List.foldl_cons]
    rcases List.mem_cons.mp hmem with heq | hmemRest
    · subst heq
      apply generateDiff_isSome_preserved
      simp [hm, assocFind_insertAssoc_self]
    · exact ih hmemRest _

theorem generateDiff_of_assocFind (df : String → String → String) {c : String}
    {r : TestResult} {results : List (String × TestResult)}
    (hfind : assocFind c results = some r) (hm : mismatch r = true) :
    (assocFind c (generateDiff df results)).isSome = true :=
  generateDiff_mem_isSome df (assocFind_mem hfind) hm

/-! ### runCommand and status lemmas -/

theorem runCommandRes_success (env : RunEnv) (h1 : env.pipeErr = none)
    (h2 : env.startErr = none) (h3 : env.writeErr = none) :
    runCommandRes env = (trimSpace env.stdout, trimSpace env.stderr, waitCode env.waitRes) := by
  simp [runCommandRes, runCommandModel, h1, h2, h3]

theorem runCommandTrace_success (env : RunEnv) (h1 : env.pipeErr = none)
    (h2 : env.startErr = none) (h3 : env.writeErr = none) :
    runCommandTrace env = [.started, .wroteStdin, .closedStdin, .waited] := by
  simp [runCommandTrace, runCommandModel, h1, h2, h3]

theorem statusOf_eq_pass_iff (r : TestResult) :
    statusOf r = "PASS" ↔
      (r.outputMatch = true ∧ r.errorMatch = true ∧ r.returnCodeMatch = true) := by
  unfold statusOf mismatch
  by_cases h1 : r.outputMatch <;> by_cases h2 : r.errorMatch <;>
    by_cases h3 : r.returnCodeMatch <;> simp [h1, h2, h3]

/-! ### Concrete sample data used in witnesses and counterexamples -/

/-- A subprocess environment in which all fallible steps succeed. -/
def okEnv (out err : String) (w : WaitRes) : RunEnv :=
  { pipeErr := none, startErr := none, writeErr := none, waitRes := w,
    stdout := out, stderr := err }

/-- A shell whose subprocess exits with status 3 and prints nothing. -/
def bashExit3 : Shell := fun _ => okEnv "" "" (.exitErr 3)

/-- A shell whose subprocess exits with status 0 and prints nothing. -/
def miniExit0 : Shell := fun _ => okEnv "" "" .ok

/-- A test case running `exit 3`, with no declared expectations. -/
def exit3Case : TestCase :=
  { command := "exit 3", description := "exit code only mismatch",
    expectedOutput := "", expectedError := "", expectedCode := 0 }

/-- A second test case with the same command text but another description. -/
def exit3CaseAlt : TestCase :=
  { command := "exit 3", description := "same command again",
    expectedOutput := "", expectedError := "", expectedCode := 0 }

/-- A stand-in for the external diff renderer. -/
def diffId : String → String → String := fun a _ => a

/-- A shell printing `hello` with a trailing newline. -/
def bashWS : Shell := fun _ => okEnv "hello\n" "" .ok

/-- A shell printing `hello` with leading spaces. -/
def miniWS : Shell := fun _ => okEnv "  hello" "" .ok

/-- An `echo hello` test case with no declared expectations. -/
def echoCase : TestCase :=
  { command := "echo hello", description := "echo", expectedOutput := "",
    expectedError := "", expectedCode := 0 }

/-- An environment whose stdin pipe creation fails. -/
def pipeFailEnv : RunEnv :=
  { pipeErr := some "pipe creation failed", startErr := none, writeErr := none,
    waitRes := .ok, stdout := "", stderr := "" }

/-- An environment whose stdin write fails after a successful start. -/
def writeFailEnv : RunEnv :=
  { pipeErr := none, startErr := none, writeErr := some "broken pipe",
    waitRes := .ok, stdout := "", stderr := "" }

/-! ### Claim theorems -/

/-- Claim C1: a result's printed status is PASS exactly when its
`outputMatch`, `errorMatch` and `returnCodeMatch` booleans are all true,
and the `passedTests` counter of `main` equals the number of entries of
the result map satisfying that conjunction, with `failedTests` the total
minus that count. -/
theorem pass_aggregation (bash mini : Shell) (tcs : List TestCase) :
    (∀ r : TestResult,
      statusOf r = "PASS" ↔
        (r.outputMatch = true ∧ r.errorMatch = true ∧ r.returnCodeMatch = true)) ∧
    passedTests (compareOutput bash mini tcs) =
      ((compareOutput bash mini tcs).filter
        (fun p => p.2.outputMatch && p.2.errorMatch && p.2.returnCodeMatch)).length ∧
    failedTests (compareOutput bash mini tcs) =
      totalTests (compareOutput bash mini tcs) -
        ((compareOutput bash mini tcs).filter
          (fun p => p.2.outputMatch && p.2.errorMatch && p.2.returnCodeMatch)).length := by
  refine ⟨statusOf_eq_pass_iff, passedTests_eq_filter _, ?_⟩
  unfold failedTests
  rw [passedTests_eq_filter]

/-- Claim C4: a test case with no declared expectations (empty expected
output/error strings and zero expected code) gets all three
expected-match booleans true, for every pair of shells. -/
theorem expected_defaults (bash mini : Shell) (tc : TestCase)
    (h1 : tc.expectedOutput = "") (h2 : tc.expectedError = "") (h3 : tc.expectedCode = 0) :
    (mkResult bash mini tc).expectedOutputMatch = true ∧
    (mkResult bash mini tc).expectedErrorMatch = true ∧
    (mkResult bash mini tc).expectedCodeMatch = true := by
  simp [mkResult, h1, h2, h3]

/-- Witness for C4 at the concrete `exit 3` test case and shells. -/
theorem expected_defaults_witness :
    exit3Case.expectedOutput = "" ∧ exit3Case.expectedError = "" ∧
    exit3Case.expectedCode = 0 ∧
    ((mkResult bashExit3 miniExit0 exit3Case).expectedOutputMatch = true ∧
      (mkResult bashExit3 miniExit0 exit3Case).expectedErrorMatch = true ∧
      (mkResult bashExit3 miniExit0 exit3Case).expectedCodeMatch = true) :=
  ⟨rfl, rfl, rfl, expected_defaults bashExit3 miniExit0 exit3Case rfl rfl rfl⟩

/-- Claim C5: when both subprocesses run, captured stdouts that differ
only in leading/trailing whitespace (equal after trimming) yield
`outputMatch = true`, because `runCommand` trims both streams before the
comparison. -/
theorem trimmed_outputs_match (bash mini : Shell) (tc : TestCase)
    (hbp : (bash tc.command).pipeErr = none) (hbs : (bash tc.command).startErr = none)
    (hbw : (bash tc.command).writeErr = none)
    (hmp : (mini tc.command).pipeErr = none) (hms : (mini tc.command).startErr = none)
    (hmw : (mini tc.command).writeErr = none)
    (hout : trimSpace (bash tc.command).stdout = trimSpace (mini tc.command).stdout) :
    (mkResult bash mini tc).outputMatch = true := by
  have hb := runCommandRes_success (bash tc.command) hbp hbs hbw
  have hm := runCommandRes_success (mini tc.command) hmp hms hmw
  simp [mkResult, hb, hm, hout]

/-- Witness for C5: `"hello\n"` versus `"  hello"` differ as raw strings
but match after trimming. -/
theorem trimmed_outputs_match_witness :
    (bashWS "echo hello").stdout ≠ (miniWS "echo hello").stdout ∧
    trimSpace (bashWS "echo hello").stdout = trimSpace (miniWS "echo hello").stdout ∧
    (mkResult bashWS miniWS echoCase).outputMatch = true :=
  ⟨by decide, by decide,
    trimmed_outputs_match bashWS miniWS echoCase rfl rfl rfl rfl rfl rfl (by decide)⟩

/-- Claim C7: `runCommand` returns empty stdout, the error text and the
fixed fallback exit code 1 when the stdin pipe cannot be created, the
subprocess cannot start, or the stdin write fails; on normal termination
it returns the process's reported exit code. -/
theorem runCommand_error_contract (env : RunEnv) :
    (∀ e, env.pipeErr = some e → runCommandRes env = ("", e, 1)) ∧
    (env.pipeErr = none → ∀ e, env.startErr = some e → runCommandRes env = ("", e, 1)) ∧
    (env.pipeErr = none → env.startErr = none → ∀ e, env.writeErr = some e →
      runCommandRes env = ("", e, 1)) ∧
    (env.pipeErr = none → env.startErr = none → env.writeErr = none →
      ∀ c, env.waitRes = .exitErr c → (runCommandRes env).2.2 = c) ∧
    (env.pipeErr = none → env.startErr = none → env.writeErr = none →
      env.waitRes = .ok → (runCommandRes env).2.2 = 0) := by
  refine ⟨fun e he => ?_, fun hp e he => ?_, fun hp hs e he => ?_,
    fun hp hs hw c hc => ?_, fun hp hs hw hc => ?_⟩ <;>
    simp [runCommandRes, runCommandModel, waitCode, *]

/-- Witness for C7: a failed pipe creation yields `("", err, 1)`, and a
normal exit with status 3 yields exit code 3. -/
theorem runCommand_error_contract_witness :
    runCommandRes pipeFailEnv = ("", "pipe creation failed", 1) ∧
    (runCommandRes (okEnv "" "" (.exitErr 3))).2.2 = 3 :=
  ⟨(runCommand_error_contract pipeFailEnv).1 "pipe creation failed" rfl,
    (runCommand_error_contract (okEnv "" "" (.exitErr 3))).2.2.2.1 rfl rfl rfl 3 rfl⟩

/-- Claim C9: with each shell modelled as a deterministic function from
command to behaviour, two runs of the comparison over the same test
cases and extensionally equal shells produce identical result maps, and
hence identical match booleans for every command. -/
theorem comparison_deterministic (bash1 mini1 bash2 mini2 : Shell) (tcs : List TestCase)
    (hb : ∀ c, bash1 c = bash2 c) (hm : ∀ c, mini1 c = mini2 c) :
    compareOutput bash1 mini1 tcs = compareOutput bash2 mini2 tcs ∧
    ∀ c, assocFind c (compareOutput bash1 mini1 tcs) =
      assocFind c (compareOutput bash2 mini2 tcs) := by
  have hb2 : bash1 = bash2 := funext hb
  have hm2 : mini1 = mini2 := funext hm
  subst hb2
  subst hm2
  exact ⟨rfl, fun _ => rfl⟩

/-- Witness for C9 at concrete shells and a one-test suite. -/
theorem comparison_deterministic_witness :
    compareOutput bashExit3 miniExit0 [exit3Case] =
      compareOutput bashExit3 miniExit0 [exit3Case] :=
  (comparison_deterministic bashExit3 miniExit0 bashExit3 miniExit0 [exit3Case]
    (fun _ => rfl) (fun _ => rfl)).1

/-- Claim C10: when the subprocess starts and the stdin write succeeds
but `Wait` fails with an error that is not an exit-status error, the
returned exit code is the initial value 0, not the fallback 1 — the
result is indistinguishable from a successful exit with code 0. -/
theorem wait_other_error_code_zero (env : RunEnv)
    (hp : env.pipeErr = none) (hs : env.startErr = none) (hw : env.writeErr = none)
    (hres : env.waitRes = .otherErr) :
    (runCommandRes env).2.2 = 0 ∧
    runCommandRes env = runCommandRes { env with waitRes := .ok } := by
  constructor
  · simp [runCommandRes, runCommandModel, waitCode, hp, hs, hw, hres]
  · simp [runCommandRes, runCommandModel, waitCode, hp, hs, hw, hres]

/-- Witness for C10 at a concrete environment. -/
theorem wait_other_error_code_zero_witness :
    (runCommandRes (okEnv "x" "y" .otherErr)).2.2 = 0 ∧
    runCommandRes (okEnv "x" "y" .otherErr) = runCommandRes (okEnv "x" "y" .ok) :=
  wait_other_error_code_zero (okEnv "x" "y" .otherErr) rfl rfl rfl rfl

/-- Claim C2 counterexample: for the `exit 3` scenario (identical, empty
trimmed stdout and stderr from both shells; exit codes 3 versus 0) the
result has `returnCodeMatch = false` and status FAIL, yet the
differences map produced by `generateDiff` DOES contain an entry for the
test — the diff section is printed, not omitted, because the mismatch
condition includes `returnCodeMatch`. -/
theorem exit_code_mismatch_diff_not_omitted :
    (mkResult bashExit3 miniExit0 exit3Case).outputMatch = true ∧
    (mkResult bashExit3 miniExit0 exit3Case).errorMatch = true ∧
    (mkResult bashExit3 miniExit0 exit3Case).returnCodeMatch = false ∧
    statusOf (mkResult bashExit3 miniExit0 exit3Case) = "FAIL" ∧
    assocFind "exit 3"
        (generateDiff diffId (compareOutput bashExit3 miniExit0 [exit3Case])) ≠
      none := by
  decide

/-- Claim C2 (amended): for any test case whose last occurrence in the
suite has both shells succeeding with equal trimmed stdout and stderr
but different exit codes, the stored result has `returnCodeMatch =
false` and status FAIL, and the test appears in the differences map
(its diff section is printed, though the rendered diff compares two
identical stdouts), because `returnCodeMatch` is part of the mismatch
condition. -/
theorem exit_code_only_mismatch (bash mini : Shell) (tcs : List TestCase) (tc : TestCase)
    (df : String → String → String)
    (hlast : tcs.reverse.find? (fun t => t.command == tc.command) = some tc)
    (hbp : (bash tc.command).pipeErr = none) (hbs : (bash tc.command).startErr = none)
    (hbw : (bash tc.command).writeErr = none)
    (hmp : (mini tc.command).pipeErr = none) (hms : (mini tc.command).startErr = none)
    (hmw : (mini tc.command).writeErr = none)
    (hout : trimSpace (bash tc.command).stdout = trimSpace (mini tc.command).stdout)
    (herr : trimSpace (bash tc.command).stderr = trimSpace (mini tc.command).stderr)
    (hrc : waitCode (bash tc.command).waitRes ≠ waitCode (mini tc.command).waitRes) :
    ∃ r, assocFind tc.command (compareOutput bash mini tcs) = some r ∧
      r.returnCodeMatch = false ∧ statusOf r = "FAIL" ∧
      (assocFind tc.command
        (generateDiff df (compareOutput bash mini tcs))).isSome = true := by
  have hfind : assocFind tc.command (compareOutput bash mini tcs) =
      some (mkResult bash mini tc) := by
    rw [assocFind_compareOutput, hlast]
    rfl
  have hb := runCommandRes_success (bash tc.command) hbp hbs hbw
  have hm := runCommandRes_success (mini tc.command) hmp hms hmw
  have hrcMatch : (mkResult bash mini tc).returnCodeMatch = false := by
    simp [mkResult, hb, hm, hrc]
  have hmis : mismatch (mkResult bash mini tc) = true := by
    simp [mismatch, hrcMatch]
  refine ⟨mkResult bash mini tc, hfind, hrcMatch, ?_, ?_⟩
  · simp [statusOf, hmis]
  · exact generateDiff_of_assocFind df hfind hmis

/-- Witness for the amended C2 at the concrete `exit 3` scenario. -/
theorem exit_code_only_mismatch_witness :
    trimSpace (bashExit3 "exit 3").stdout = trimSpace (miniExit0 "exit 3").stdout ∧
    waitCode (bashExit3 "exit 3").waitRes ≠ waitCode (miniExit0 "exit 3").waitRes ∧
    (∃ r, assocFind "exit 3" (compareOutput bashExit3 miniExit0 [exit3Case]) = some r ∧
      r.returnCodeMatch = false ∧ statusOf r = "FAIL" ∧
      (assocFind "exit 3"
        (generateDiff diffId (compareOutput bashExit3 miniExit0 [exit3Case]))).isSome = true) :=
  ⟨rfl, by decide,
    exit_code_only_mismatch bashExit3 miniExit0 [exit3Case] exit3Case diffId
      (by decide) rfl rfl rfl rfl rfl rfl rfl rfl (by decide)⟩

/-- Claim C3 counterexample: in a run whose stdin write fails after a
successful start, `runCommand` returns with the subprocess started but
with neither the stdin pipe closed nor the process waited on — so the
claim that every started subprocess is closed and awaited on every
execution path is false. -/
theorem started_without_wait :
    RunEvent.started ∈ runCommandTrace writeFailEnv ∧
    RunEvent.closedStdin ∉ runCommandTrace writeFailEnv ∧
    RunEvent.waited ∉ runCommandTrace writeFailEnv := by
  decide

/-- Claim C3 (amended): a started subprocess has its stdin closed and
its exit awaited before `runCommand` returns whenever the stdin write
succeeds (the trace is exactly start, write, close, wait, in that
order); on the one error path where the stdin write fails, the function
returns with the started subprocess neither closed nor awaited. -/
theorem subprocess_waited_iff_write_ok (env : RunEnv)
    (h : RunEvent.started ∈ runCommandTrace env) :
    (env.writeErr = none →
      runCommandTrace env = [.started, .wroteStdin, .closedStdin, .waited]) ∧
    (∀ e, env.writeErr = some e → runCommandTrace env = [.started]) := by
  cases hp : env.pipeErr with
  | some e => simp [runCommandTrace, runCommandModel, hp] at h
  | none =>
    cases hs : env.startErr with
    | some e => simp [runCommandTrace, runCommandModel, hp, hs] at h
    | none =>
      constructor
      · intro hw
        exact runCommandTrace_success env hp hs hw
      · intro e hw
        simp [runCommandTrace, runCommandModel, hp, hs, hw]

/-- Witness for the amended C3 at a fully successful environment. -/
theorem subprocess_waited_iff_write_ok_witness :
    RunEvent.started ∈ runCommandTrace (okEnv "hello" "" .ok) ∧
    (((okEnv "hello" "" .ok).writeErr = none →
      runCommandTrace (okEnv "hello" "" .ok) =
        [.started, .wroteStdin, .closedStdin, .waited]) ∧
    (∀ e, (okEnv "hello" "" .ok).writeErr = some e →
      runCommandTrace (okEnv "hello" "" .ok) = [.started])) :=
  ⟨by decide, subprocess_waited_iff_write_ok (okEnv "hello" "" .ok) (by decide)⟩

/-- Claim C6: a suite containing two or more test cases with the same
command text yields exactly one entry in the result map for that
command, holding the result of the last-processed such test case. -/
theorem duplicate_command_collapse (bash mini : Shell) (tcs : List TestCase) (c : String)
    (h : 2 ≤ (tcs.filter (fun t => t.command == c)).length) :
    countKey c (compareOutput bash mini tcs) = 1 ∧
    assocFind c (compareOutput bash mini tcs) =
      Option.map (mkResult bash mini) (tcs.reverse.find? (fun t => t.command == c)) := by
  refine ⟨?_, assocFind_compareOutput bash mini tcs c⟩
  rw [countKey_compareOutput]
  have hne : tcs.filter (fun t => t.command == c) ≠ [] := by
    intro hnil
    rw [hnil] at h
    simp at h
  obtain ⟨t, ht⟩ := List.exists_mem_of_ne_nil _ hne
  obtain ⟨htmem, htcmd⟩ := List.mem_filter.mp ht
  have hany : tcs.any (fun t => t.command == c) = true :=
    List.any_eq_true.mpr ⟨t, htmem, htcmd⟩
  simp [hany]

/-- Witness for C6: two test cases with command `exit 3` and different
descriptions collapse to one entry holding the later one's result. -/
theorem duplicate_command_collapse_witness :
    2 ≤ ([exit3Case, exit3CaseAlt].filter (fun t => t.command == "exit 3")).length ∧
    (countKey "exit 3" (compareOutput bashExit3 miniExit0 [exit3Case, exit3CaseAlt]) = 1 ∧
      assocFind "exit 3" (compareOutput bashExit3 miniExit0 [exit3Case, exit3CaseAlt]) =
        Option.map (mkResult bashExit3 miniExit0)
          ([exit3Case, exit3CaseAlt].reverse.find? (fun t => t.command == "exit 3"))) :=
  ⟨by decide,
    duplicate_command_collapse bashExit3 miniExit0 [exit3Case, exit3CaseAlt] "exit 3"
      (by decide)⟩

/-- Claim C8: the harness exits 0 or 1; it exits 0 exactly when loading
succeeded, both shell existence checks passed, and (if an output path
was given) the report was marshalled and written — independently of the
shells' behaviour, hence of how many test cases failed. -/
theorem harness_exit_status (env : MainEnv) :
    (mainExit env = 0 ∨ mainExit env = 1) ∧
    (mainExit env = 0 ↔
      ((∃ tcs, env.loadRes = .ok tcs) ∧ env.bashFound = true ∧ env.miniFound = true ∧
        (env.outputPath ≠ "" → env.marshalOk = true ∧ env.writeOk = true))) ∧
    (∀ bash mini : Shell, mainExit { env with bash := bash, mini := mini } = mainExit env) := by
  obtain ⟨load, bf, mf, bsh, msh, op, mo, wo⟩ := env
  cases load with
  | error e => simp [mainExit]
  | ok tcs =>
    cases bf <;> cases mf <;> cases mo <;> cases wo <;> by_cases hop : op = "" <;>
      simp [mainExit, hop]

/-- Witness for C8 at a concrete environment: load succeeds, both
shells exist, no output path, one failing test — exit status 0. -/
theorem harness_exit_status_witness :
    mainExit
        { loadRes := .ok [exit3Case], bashFound := true, miniFound := true,
          bash := bashExit3, mini := miniExit0, outputPath := "",
          marshalOk := true, writeOk := true } = 0 :=
  (harness_exit_status _).2.1.mpr
    ⟨⟨[exit3Case], rfl⟩, rfl, rfl, fun hop => absurd rfl hop⟩

end MiniTester
